import Mathlib

/-!
Shallow embedding of the `eufy_robovac_s1_pro` Home Assistant integration.

The embedding translates, line by line, the pure decision logic of

  * `vacuum.py`  — the Activity Classifier (`RobovacVacuum.activity`),
    the battery reader (`RobovacVacuum.battery_level`) and the Command
    Sequencer (`async_start`, `async_turn_on`, `async_pause`,
    `async_return_to_base`, `async_set_fan_speed`, `_send_command`),
  * `sensor.py`  — the Telemetry Codec (`decode_varint`,
    `parse_dps167_statistics`),
  * `select.py`  — `CleaningModeSelect.async_select_option`,
  * `discovery.py` — `TuyaDiscovery.device_found`.

Python data-point values are modelled by the sum type `DPValue`
(booleans, arbitrary-precision integers, strings); a data-point
snapshot (a Python dict) is an association list with unique keys,
accessed through `dget` / `dgetD` which mirror `dict.get`.  Awaited
network writes are modelled by an explicit write trace together with a
fault-injection environment (`Env`) that says which write call, if
any, raises a transport error; exceptions are modelled by an explicit
`raised` flag (swallowed exceptions) or an `Except` result
(propagated exceptions, e.g. Python `TypeError` from comparing a
string with an integer).
-/

/-- A device data-point value: boolean, integer, or string scalar. -/
inductive DPValue where
  | b (v : Bool)
  | i (v : Int)
  | s (v : String)
deriving DecidableEq, Repr

/-- A data-point snapshot: the string-keyed Python dict of raw DPS values,
as an association list (keys unique, insertion order kept). -/
abbrev Snapshot := List (String × DPValue)

/-- Python `d.get(k)`: the value at the first matching key, if any. -/
def dget (d : Snapshot) (k : String) : Option DPValue :=
  (d.find? (fun p => p.1 == k)).map (fun p => p.2)

/-- Python `d.get(k, dflt)`. -/
def dgetD (d : Snapshot) (k : String) (dflt : DPValue) : DPValue :=
  (dget d k).getD dflt

/-- Python truthiness of a scalar value. -/
def dvTruthy : DPValue → Bool
  | .b v => v
  | .i v => v != 0
  | .s v => v != ""

/-- Python `v == s` for a string literal `s` (values of another type
compare unequal, never raising). -/
def dvEqStr (v : DPValue) (s : String) : Bool :=
  match v with
  | .s t => t == s
  | _ => false

/-- Python `v == n` for an integer literal `n`.  In Python
`True == 1` and `False == 0`; strings never equal integers. -/
def dvEqInt (v : DPValue) (n : Int) : Bool :=
  match v with
  | .i m => m == n
  | .b bv => (if bv then (1 : Int) else 0) == n
  | .s _ => false

/-- Python `isinstance(v, int) and v >= 100` (`bool` is a subclass of
`int` in Python, but a bool is 0 or 1, hence never `>= 100`). -/
def dvIntGe100 : DPValue → Bool
  | .i n => 100 ≤ n
  | .b _ => false
  | .s _ => false

/-- Python `v >= n` against an integer: comparing a string with an
integer raises `TypeError`, modelled as `Except.error`. -/
def pyGe (v : DPValue) (n : Int) : Except Unit Bool :=
  match v with
  | .i m => .ok (n ≤ m)
  | .b bv => .ok (n ≤ (if bv then (1 : Int) else 0))
  | .s _ => .error ()

/-- `S1_PRO_STATUS["CLEANING"]` (vacuum.py line 52). -/
def S1_PRO_STATUS_CLEANING : String := "BgoAEAUyAA=="

/-- `S1_PRO_STATUS["PAUSED"]` (vacuum.py line 53). -/
def S1_PRO_STATUS_PAUSED : String := "CAoAEAUyAggB"

/-- `S1_PRO_STATUS["RETURNING"]` (vacuum.py line 54). -/
def S1_PRO_STATUS_RETURNING : String := "BBAHQgA="

/-- `S1_PRO_COMMANDS["start"]` (vacuum.py line 44). -/
def CMD_START : String := "AA=="

/-- `S1_PRO_COMMANDS["cleaning"]` (vacuum.py line 45). -/
def CMD_CLEANING : String := "AggO"

/-- `S1_PRO_COMMANDS["pause"]` (vacuum.py line 46). -/
def CMD_PAUSE : String := "AggN"

/-- `S1_PRO_COMMANDS["return"]` (vacuum.py line 47). -/
def CMD_RETURN : String := "AggG"

/-- The canonical activity states returned by the classifier
(`homeassistant.components.vacuum.VacuumActivity` members used by the
integration). -/
inductive VacuumActivity where
  | cleaning
  | paused
  | returning
  | docked
  | idle
  | error
deriving DecidableEq, Repr

/-- Result of a classification: the returned activity (`none` models
Python `None`, returned when no coordinator data is available) together
with the updated `_was_paused` instance memory. -/
structure ActivityResult where
  act : Option VacuumActivity
  wasPaused : Bool
deriving DecidableEq, Repr

/-- `RobovacVacuum.activity` (vacuum.py lines 111-187), with the
`self._was_paused` side effect made explicit: the classifier takes the
memory before the call and returns the memory after it.  The
coordinator data is `none` for Python `None`; a present-but-empty dict
is also falsy in Python, so both return activity `none`.  The
`.error` result models the `TypeError` Python raises when the battery
value under key "8" is a string compared against 95. -/
def activity (data : Option Snapshot) (wasPaused : Bool) : Except Unit ActivityResult :=
  match data with
  | none => .ok ⟨none, wasPaused⟩
  | some d =>
    if d.isEmpty then .ok ⟨none, wasPaused⟩ else
    let dps2 := dgetD d "2" (.b false)
    let dps6 := dgetD d "6" (.i 0)
    let dps7 := dgetD d "7" (.i 0)
    let dps152 := dgetD d "152" (.s "")
    let dps153 := dgetD d "153" (.s "")
    if dvIntGe100 dps6 then .ok ⟨some .error, wasPaused⟩
    else if dvEqStr dps153 S1_PRO_STATUS_CLEANING then .ok ⟨some .cleaning, false⟩
    else if dvEqStr dps153 S1_PRO_STATUS_PAUSED then .ok ⟨some .paused, true⟩
    else if dvEqStr dps153 S1_PRO_STATUS_RETURNING then .ok ⟨some .returning, false⟩
    else if dvTruthy dps153 &&
        !(dvEqStr dps153 S1_PRO_STATUS_CLEANING || dvEqStr dps153 S1_PRO_STATUS_PAUSED ||
          dvEqStr dps153 S1_PRO_STATUS_RETURNING) then
      .ok ⟨some .docked, false⟩
    else if !(dvTruthy dps153) then
      if dvEqStr dps152 CMD_CLEANING then .ok ⟨some .cleaning, false⟩
      else if dvEqStr dps152 CMD_PAUSE then .ok ⟨some .paused, true⟩
      else if dvEqStr dps152 CMD_RETURN then .ok ⟨some .returning, false⟩
      else if dvEqInt dps6 2 && dvEqInt dps7 3 then .ok ⟨some .cleaning, false⟩
      else if dvEqInt dps6 3 && dvEqInt dps7 4 then .ok ⟨some .paused, true⟩
      else if dvEqInt dps6 1 && dvEqInt dps7 2 then .ok ⟨some .returning, false⟩
      else if dvEqInt dps6 0 && dvEqInt dps7 0 then
        match pyGe (dgetD d "8" (.i 0)) 95 with
        | .error e => .error e
        | .ok true => .ok ⟨some .docked, wasPaused⟩
        | .ok false => .ok ⟨some .idle, wasPaused⟩
      else if dvTruthy dps2 then .ok ⟨some .idle, wasPaused⟩
      else
        match pyGe (dgetD d "8" (.i 0)) 95 with
        | .error e => .error e
        | .ok true => .ok ⟨some .docked, wasPaused⟩
        | .ok false => .ok ⟨some .idle, wasPaused⟩
    else .ok ⟨some .idle, wasPaused⟩

/-- A snapshot holding a key is a non-empty dict. -/
theorem dget_isEmpty_false {d : Snapshot} {k : String} {v : DPValue}
    (h : dget d k = some v) : d.isEmpty = false := by
  cases d with
  | nil => simp [dget] at h
  | cons a l => rfl

/-- `dict.get k dflt` returns the stored value when the key is present. -/
theorem dgetD_of_dget {d : Snapshot} {k : String} {v : DPValue} (dflt : DPValue)
    (h : dget d k = some v) : dgetD d k dflt = v := by
  simp [dgetD, h]

/-- A falsy value never equals a non-empty string literal. -/
theorem dvEqStr_of_falsy {v : DPValue} {s : String}
    (hv : dvTruthy v = false) (hs : s ≠ "") : dvEqStr v s = false := by
  cases v with
  | b bv => rfl
  | i n => rfl
  | s t =>
    simp [dvTruthy] at hv
    simp [dvEqStr, hv]
    exact fun h => hs h.symm

/-- A value equal to the integer 0 is never an error indicator. -/
theorem dvIntGe100_of_eq_zero {v : DPValue} (h : dvEqInt v 0 = true) :
    dvIntGe100 v = false := by
  cases v with
  | b bv => rfl
  | i n =>
    simp [dvEqInt] at h
    simp [dvIntGe100, h]
  | s t => rfl

/-- A value equal to the integer 0 is not equal to a non-zero integer. -/
theorem dvEqInt_of_eq_zero {v : DPValue} {n : Int} (h : dvEqInt v 0 = true)
    (hn : n ≠ 0) : dvEqInt v n = false := by
  cases v with
  | b bv =>
    simp [dvEqInt] at h ⊢
    cases bv with
    | true => simp at h
    | false => simpa using fun hc => hn hc.symm
  | i m =>
    simp [dvEqInt] at h ⊢
    exact h ▸ fun hc => hn hc.symm
  | s t => rfl

/-- C1: in every snapshot whose primary status field "153" equals the
known PAUSED encoding and whose error indicator "6" is not an integer
`>= 100`, the classifier returns PAUSED (and records the pause in its
memory), whatever the values of the legacy fields "2", "5", "6", "7"
and the command echo "152" and whatever the prior memory. -/
theorem C1_paused_status_priority (d : Snapshot) (wp : Bool)
    (h153 : dget d "153" = some (.s S1_PRO_STATUS_PAUSED))
    (h6 : dvIntGe100 (dgetD d "6" (.i 0)) = false) :
    activity (some d) wp = .ok ⟨some .paused, true⟩ := by
  have hne : d.isEmpty = false := dget_isEmpty_false h153
  have h153' : dgetD d "153" (.s "") = .s S1_PRO_STATUS_PAUSED :=
    dgetD_of_dget _ h153
  simp only [activity, hne, Bool.false_eq_true, if_false, h153', h6,
    show dvEqStr (DPValue.s S1_PRO_STATUS_PAUSED) S1_PRO_STATUS_CLEANING = false from by decide,
    show dvEqStr (DPValue.s S1_PRO_STATUS_PAUSED) S1_PRO_STATUS_PAUSED = true from by decide,
    if_true]

/-- Closed witness for C1 at a concrete snapshot exercising every
hypothesis: legacy fields and command echo all populated. -/
theorem C1_paused_status_priority_witness :
    activity (some [("153", .s "CAoAEAUyAggB"), ("2", .b true), ("5", .s "smart"),
      ("6", .i 2), ("7", .i 3), ("152", .s "AggO")]) false =
      .ok ⟨some .paused, true⟩ :=
  C1_paused_status_priority _ false (by decide) (by decide)

/-- C2: in every snapshot whose error indicator "6" is an integer
`>= 100`, the classifier returns ERROR regardless of every other field
(the error rung precedes even an exact primary-status match), and the
pause memory is left unchanged. -/
theorem C2_error_first_rung (d : Snapshot) (wp : Bool) (n : Int)
    (h6 : dget d "6" = some (.i n)) (hn : 100 ≤ n) :
    activity (some d) wp = .ok ⟨some .error, wp⟩ := by
  have hne : d.isEmpty = false := dget_isEmpty_false h6
  have h6' : dgetD d "6" (.i 0) = .i n := dgetD_of_dget _ h6
  have herr : dvIntGe100 (dgetD d "6" (.i 0)) = true := by
    simp [h6', dvIntGe100, hn]
  simp only [activity, hne, Bool.false_eq_true, if_false, herr, if_true]

/-- Closed witness for C2: error code 104 beats an exact CLEANING match
on the primary status field. -/
theorem C2_error_first_rung_witness :
    activity (some [("6", .i 104), ("153", .s "BgoAEAUyAA==")]) true =
      .ok ⟨some .error, true⟩ :=
  C2_error_first_rung _ true 104 (by decide) (by decide)

/-- C3: in every non-empty snapshot where the primary status "153" is
absent or falsy, the command echo "152" matches none of the known
command encodings, and the legacy pair ("6","7") equals (0, 0), the
classifier defers to the battery value under "8" (default 0): DOCKED
when it is `>= 95`, IDLE otherwise; the pause memory is unchanged. -/
theorem C3_zero_pair_battery_fallback (d : Snapshot) (wp : Bool) (bat : Int)
    (hne : d.isEmpty = false)
    (h153 : dvTruthy (dgetD d "153" (.s "")) = false)
    (_h152s : dvEqStr (dgetD d "152" (.s "")) CMD_START = false)
    (h152c : dvEqStr (dgetD d "152" (.s "")) CMD_CLEANING = false)
    (h152p : dvEqStr (dgetD d "152" (.s "")) CMD_PAUSE = false)
    (h152r : dvEqStr (dgetD d "152" (.s "")) CMD_RETURN = false)
    (h6 : dvEqInt (dgetD d "6" (.i 0)) 0 = true)
    (h7 : dvEqInt (dgetD d "7" (.i 0)) 0 = true)
    (h8 : dgetD d "8" (.i 0) = .i bat) :
    activity (some d) wp =
      .ok ⟨some (if 95 ≤ bat then .docked else .idle), wp⟩ := by
  have herr : dvIntGe100 (dgetD d "6" (.i 0)) = false := dvIntGe100_of_eq_zero h6
  have hc : dvEqStr (dgetD d "153" (.s "")) S1_PRO_STATUS_CLEANING = false :=
    dvEqStr_of_falsy h153 (by decide)
  have hp : dvEqStr (dgetD d "153" (.s "")) S1_PRO_STATUS_PAUSED = false :=
    dvEqStr_of_falsy h153 (by decide)
  have hr : dvEqStr (dgetD d "153" (.s "")) S1_PRO_STATUS_RETURNING = false :=
    dvEqStr_of_falsy h153 (by decide)
  have h62 : dvEqInt (dgetD d "6" (.i 0)) 2 = false := dvEqInt_of_eq_zero h6 (by decide)
  have h63 : dvEqInt (dgetD d "6" (.i 0)) 3 = false := dvEqInt_of_eq_zero h6 (by decide)
  have h61 : dvEqInt (dgetD d "6" (.i 0)) 1 = false := dvEqInt_of_eq_zero h6 (by decide)
  simp only [activity, hne, Bool.false_eq_true, if_false, herr, hc, hp, hr, h153,
    h152c, h152p, h152r, h6, h7, h62, h63, h61, Bool.false_and, Bool.and_self,
    Bool.not_false, if_true, h8, pyGe]
  by_cases hb : 95 ≤ bat
  · simp [hb]
  · simp [hb]

/-- Closed witness for C3: with the legacy pair (0,0), battery 95 gives
DOCKED and battery 94 gives IDLE. -/
theorem C3_zero_pair_battery_fallback_witness :
    activity (some [("6", .i 0), ("7", .i 0), ("8", .i 95)]) false =
        .ok ⟨some .docked, false⟩ ∧
      activity (some [("6", .i 0), ("7", .i 0), ("8", .i 94)]) false =
        .ok ⟨some .idle, false⟩ := by
  constructor
  · have h := C3_zero_pair_battery_fallback
      [("6", .i 0), ("7", .i 0), ("8", .i 95)] false 95
      (by decide) (by decide) (by decide) (by decide) (by decide) (by decide)
      (by decide) (by decide) (by decide)
    simpa using h
  · have h := C3_zero_pair_battery_fallback
      [("6", .i 0), ("7", .i 0), ("8", .i 94)] false 94
      (by decide) (by decide) (by decide) (by decide) (by decide) (by decide)
      (by decide) (by decide) (by decide)
    simpa using h

/-- One device write call: the mapping passed to
`coordinator.tuya_client.async_set` (all values written by the
integration are strings). -/
abbrev WriteBatch := List (String × String)

/-- Fault-injection environment for the transport: `failAt = some i`
makes the i-th write call (0-based, counted per user intent) raise a
transport error; all other calls succeed. -/
structure Env where
  failAt : Option Nat
deriving DecidableEq, Repr

/-- Outcome of one user intent: the write calls attempted in order
(including a failing one), whether an exception propagated to the
invoker, the vacuum entity's `_was_paused` memory afterwards, and
whether the input was rejected as unrecognized (logged error, no device
interaction). -/
structure OpResult where
  attempts : List WriteBatch
  raised : Bool
  wasPaused : Bool
  invalid : Bool
deriving DecidableEq, Repr

/-- Run an ordered write plan: writes succeed in order until the
environment's failing call index is reached; the failing call is the
last one attempted and aborts the rest of the plan. -/
def runPlan (env : Env) (base : Nat) : List WriteBatch → List WriteBatch × Bool
  | [] => ([], true)
  | batch :: rest =>
    if env.failAt = some base then ([batch], false)
    else
      let r := runPlan env (base + 1) rest
      (batch :: r.1, r.2)

/-- The write calls issued by `RobovacVacuum._send_command` (vacuum.py
lines 278-307): the command goes to DPS "152", then a companion mode
write to DPS "5" for the start/pause/return commands (none for the
cleaning command); the trailing refresh is a read, not a write. -/
def send_command_writes (command : String) : List WriteBatch :=
  [("152", command)] ::
    (if command == CMD_START then [[("5", "smart")]]
     else if command == CMD_PAUSE then [[("5", "pause")]]
     else if command == CMD_RETURN then [[("5", "charge")]]
     else [])

/-- `RobovacVacuum.async_turn_on` (vacuum.py lines 309-336): clear the
pause memory, send the START command then the CLEANING command; a
transport error is logged and re-raised. -/
def async_turn_on (env : Env) : OpResult :=
  let r := runPlan env 0 (send_command_writes CMD_START ++ send_command_writes CMD_CLEANING)
  ⟨r.1, !r.2, false, false⟩

/-- `RobovacVacuum.async_start` (vacuum.py lines 343-369): RESUME.
Reading `self.activity` first updates the pause memory; then, if the
classification is PAUSED, or the (updated) memory is set, or DPS "153"
equals the PAUSED status, or DPS "152" equals the pause command, only
the CLEANING command is sent (memory cleared after a successful send);
otherwise the full start sequence `async_turn_on` runs.  `Except.error`
models the exceptions Python would raise before any write (a
`TypeError` inside the classifier, or an `AttributeError` from
`self.coordinator.data.get` when the data is `None`). -/
def async_start (env : Env) (data : Option Snapshot) (wasPaused : Bool) :
    Except Unit OpResult :=
  match activity data wasPaused with
  | .error e => .error e
  | .ok a =>
    match data with
    | none => .error ()
    | some d =>
      let dps152 := dgetD d "152" (.s "")
      let dps153 := dgetD d "153" (.s "")
      if a.act = some .paused ∨ a.wasPaused = true ∨
          dvEqStr dps153 S1_PRO_STATUS_PAUSED = true ∨ dvEqStr dps152 CMD_PAUSE = true then
        let r := runPlan env 0 (send_command_writes CMD_CLEANING)
        .ok ⟨r.1, !r.2, if r.2 then false else a.wasPaused, false⟩
      else
        .ok (async_turn_on env)

/-- `RobovacVacuum.async_pause` (vacuum.py lines 371-385): set the
pause memory, send the pause command; a transport error is caught
(never re-raised) and resets the memory. -/
def async_pause (env : Env) : OpResult :=
  let r := runPlan env 0 (send_command_writes CMD_PAUSE)
  ⟨r.1, false, r.2, false⟩

/-- `RobovacVacuum.async_return_to_base` (vacuum.py lines 392-405):
clear the pause memory, send the return command; a transport error is
caught and never re-raised. -/
def async_return_to_base (env : Env) : OpResult :=
  let r := runPlan env 0 (send_command_writes CMD_RETURN)
  ⟨r.1, false, false, false⟩

/-- `HA_TO_EUFY_FAN_SPEED_MAP` (vacuum.py lines 22-27): level name to
the (DPS "9", DPS "158") value pair. -/
def HA_TO_EUFY_FAN_SPEED_MAP : List (String × String × String) :=
  [("Quiet", "gentle", "Quiet"),
   ("Standard", "normal", "Standard"),
   ("Turbo", "strong", "Turbo"),
   ("Maximum", "max", "Max")]

/-- Python dict lookup in the fan-speed map. -/
def fanSpeedLookup (fan_speed : String) : Option (String × String) :=
  (HA_TO_EUFY_FAN_SPEED_MAP.find? (fun p => p.1 == fan_speed)).map (fun p => p.2)

/-- `RobovacVacuum.async_set_fan_speed` (vacuum.py lines 417-436): an
unknown level is rejected before any device interaction (logged as an
error, i.e. `invalid`); otherwise DPS "9" and "158" are written in one
batch; a transport error is caught and never re-raised.  The pause
memory is untouched. -/
def async_set_fan_speed (env : Env) (wasPaused : Bool) (fan_speed : String) : OpResult :=
  match fanSpeedLookup fan_speed with
  | none => ⟨[], false, wasPaused, true⟩
  | some (v9, v158) =>
    let r := runPlan env 0 [[("9", v9), ("158", v158)]]
    ⟨r.1, false, wasPaused, false⟩

/-- `CLEANING_MODES` (select.py lines 18-39): mode key, display name,
DPS "154" code and optional DPS "10" water level. -/
def CLEANING_MODES : List (String × String × String × Option String) :=
  [("vacuum", "Vacuum Only", "FAoKCgASABoAIgIIAhIGCAEQASAB", none),
   ("mop_low", "Vacuum and Mop (Water Level: Low)", "FAoKCgIIAhIAGgAiABIGCAEQASAB", some "low"),
   ("mop_middle", "Vacuum and Mop (Water Level: Medium)", "FgoMCgIIAhIAGgAiAggBEgYIARABIAE=", some "middle"),
   ("mop_high", "Vacuum and Mop (Water Level: High)", "FgoMCgIIAhIAGgAiAggCEgYIARABIAE=", some "high")]

/-- The `for`-loop of `async_select_option` that finds a mode by its
display name. -/
def cleaningModeByName (option : String) : Option (String × Option String) :=
  (CLEANING_MODES.find? (fun m => m.2.1 == option)).map (fun m => m.2.2)

/-- `CleaningModeSelect.async_select_option` (select.py lines 122-153):
an unknown option is rejected with no device interaction; otherwise
DPS "154" is written, then DPS "10" only for mopping modes (whose
`dps10` is set); a transport error is caught and never re-raised.  The
select entity has no pause memory, so `wasPaused` is reported
unchanged as `false`. -/
def async_select_option (env : Env) (option : String) : OpResult :=
  match cleaningModeByName option with
  | none => ⟨[], false, false, true⟩
  | some (d154, d10) =>
    let plan := [("154", d154)] ::
      (match d10 with
       | some v => [[("10", v)]]
       | none => [])
    let r := runPlan env 0 plan
    ⟨r.1, false, false, false⟩

/-- With no transport fault, a plan runs to completion. -/
theorem runPlan_none (env : Env) (h : env.failAt = none) :
    ∀ (plan : List WriteBatch) (base : Nat), runPlan env base plan = (plan, true) := by
  intro plan
  induction plan with
  | nil => intro base; rfl
  | cons b rest ih =>
    intro base
    simp only [runPlan, h, ih (base + 1)]
    simp

/-- With a fault at call `i` inside the plan, the attempted calls are
exactly the plan's prefix through the failing call, and the run fails:
no call is retried and nothing after the fault is attempted. -/
theorem runPlan_some (env : Env) (i : Nat) (h : env.failAt = some i) :
    ∀ (plan : List WriteBatch) (base : Nat), base ≤ i → i < base + plan.length →
      runPlan env base plan = (plan.take (i + 1 - base), false) := by
  intro plan
  induction plan with
  | nil =>
    intro base hle hlt
    simp at hlt
    omega
  | cons b rest ih =>
    intro base hle hlt
    by_cases hb : base = i
    · subst hb
      simp only [runPlan, h, if_pos rfl]
      have : base + 1 - base = 1 := by omega
      simp [this]
    · have hne : env.failAt ≠ some base := by
        rw [h]
        intro hc
        exact hb (Option.some.inj hc).symm
      have h1 : base + 1 ≤ i := by omega
      have h2 : i < base + 1 + rest.length := by
        simp at hlt
        omega
      simp only [runPlan, if_neg hne, ih (base + 1) h1 h2]
      have h3 : i + 1 - base = (i + 1 - (base + 1)) + 1 := by omega
      simp [h3]

deriving instance DecidableEq for Except

/-- C4 (amended): RESUME disambiguation.  With a fault-free transport:
(1) when the pause memory is true going in and the classification
leaves it set (no status field indicates otherwise), RESUME issues
exactly one write — the CLEANING code on key "152" — and the START
code appears nowhere; (2) when the memory is false going in, the
classifier neither returns PAUSED nor sets the memory, and neither the
primary status "153" nor the command echo "152" indicates pause,
RESUME performs the full START sequence (START code, companion mode
write, CLEANING code). -/
theorem C4_resume_vs_fresh_start (d : Snapshot) (env : Env)
    (henv : env.failAt = none) :
    (∀ a, activity (some d) true = .ok a → a.wasPaused = true →
      async_start env (some d) true =
        .ok ⟨[[("152", CMD_CLEANING)]], false, false, false⟩ ∧
      ("152", CMD_START) ∉ [("152", CMD_CLEANING)]) ∧
    (∀ a, activity (some d) false = .ok a → a.act ≠ some .paused →
      a.wasPaused = false →
      dvEqStr (dgetD d "153" (.s "")) S1_PRO_STATUS_PAUSED = false →
      dvEqStr (dgetD d "152" (.s "")) CMD_PAUSE = false →
      async_start env (some d) false =
        .ok ⟨[[("152", CMD_START)], [("5", "smart")], [("152", CMD_CLEANING)]],
          false, false, false⟩) := by
  constructor
  · intro a ha hwp
    refine ⟨?_, by decide⟩
    have hcond : a.act = some VacuumActivity.paused ∨ a.wasPaused = true ∨
        dvEqStr (dgetD d "153" (.s "")) S1_PRO_STATUS_PAUSED = true ∨
        dvEqStr (dgetD d "152" (.s "")) CMD_PAUSE = true := Or.inr (Or.inl hwp)
    simp only [async_start, ha]
    have hplan : send_command_writes CMD_CLEANING = [[("152", CMD_CLEANING)]] := by decide
    rw [if_pos hcond, runPlan_none env henv, hplan]
    simp
  · intro a ha hact hwp h153 h152
    have hcond : ¬(a.act = some VacuumActivity.paused ∨ a.wasPaused = true ∨
        dvEqStr (dgetD d "153" (.s "")) S1_PRO_STATUS_PAUSED = true ∨
        dvEqStr (dgetD d "152" (.s "")) CMD_PAUSE = true) := by
      rintro (h | h | h | h)
      · exact hact h
      · rw [hwp] at h
        cases h
      · rw [h153] at h
        cases h
      · rw [h152] at h
        cases h
    simp only [async_start, ha]
    rw [if_neg hcond]
    simp only [async_turn_on, runPlan_none env henv]
    decide

/-- C4 counterexample to the claim as stated: in the snapshot holding
only the legacy pair ("6","7") = (3,4), with the memory false, the
primary status "153" not indicating pause and the command echo "152"
not indicating pause, RESUME does not perform the full START sequence:
the classifier's legacy rung classifies the snapshot as PAUSED, so
only the CLEANING code is written. -/
theorem C4_counterexample :
    dvEqStr (dgetD [("6", DPValue.i 3), ("7", DPValue.i 4)] "153" (.s ""))
        S1_PRO_STATUS_PAUSED = false ∧
    dvEqStr (dgetD [("6", DPValue.i 3), ("7", DPValue.i 4)] "152" (.s ""))
        CMD_PAUSE = false ∧
    async_start ⟨none⟩ (some [("6", DPValue.i 3), ("7", DPValue.i 4)]) false =
      .ok ⟨[[("152", CMD_CLEANING)]], false, false, false⟩ ∧
    [[("152", CMD_CLEANING)]] ≠
      [[("152", CMD_START)], [("5", "smart")], [("152", CMD_CLEANING)]] := by
  refine ⟨by decide, by decide, by decide, by decide⟩

/-- Closed witness for C4: resume-from-pause (primary status PAUSED)
writes only the cleaning code; a fresh session (battery 50, no status
fields) runs the full START sequence. -/
theorem C4_resume_vs_fresh_start_witness :
    (async_start ⟨none⟩ (some [("153", DPValue.s "CAoAEAUyAggB")]) true =
        .ok ⟨[[("152", CMD_CLEANING)]], false, false, false⟩ ∧
      ("152", CMD_START) ∉ [("152", CMD_CLEANING)]) ∧
    async_start ⟨none⟩ (some [("8", DPValue.i 50)]) false =
      .ok ⟨[[("152", CMD_START)], [("5", "smart")], [("152", CMD_CLEANING)]],
        false, false, false⟩ := by
  constructor
  · exact (C4_resume_vs_fresh_start [("153", DPValue.s "CAoAEAUyAggB")] ⟨none⟩ rfl).1
      ⟨some .paused, true⟩ (by decide) rfl
  · exact (C4_resume_vs_fresh_start [("8", DPValue.i 50)] ⟨none⟩ rfl).2
      ⟨some .idle, false⟩ (by decide) (by decide) rfl (by decide) (by decide)

/-- C5 (amended): when a write call raises a transport error, START
(`async_turn_on`) and RESUME (`async_start`) propagate the failure to
the invoker, while PAUSE, RETURN_HOME, SET_FAN_SPEED and
SET_CLEANING_MODE catch it and return normally (PAUSE additionally
resets its pause memory); in every case the failing call is the last
one attempted — its plan prefix runs once, nothing is retried and
nothing after the failure is attempted. -/
theorem C5_transport_failure_handling (i : Nat) (env : Env) (wp : Bool)
    (henv : env.failAt = some i) :
    (i < 3 → async_turn_on env =
      ⟨([[("152", CMD_START)], [("5", "smart")], [("152", CMD_CLEANING)]]).take (i + 1),
        true, false, false⟩) ∧
    (i = 0 → async_start env (some [("153", DPValue.s S1_PRO_STATUS_PAUSED)]) true =
      .ok ⟨[[("152", CMD_CLEANING)]], true, true, false⟩) ∧
    (i < 2 → async_pause env =
      ⟨([[("152", CMD_PAUSE)], [("5", "pause")]]).take (i + 1), false, false, false⟩) ∧
    (i < 2 → async_return_to_base env =
      ⟨([[("152", CMD_RETURN)], [("5", "charge")]]).take (i + 1), false, false, false⟩) ∧
    (i = 0 → async_set_fan_speed env wp "Turbo" =
      ⟨[[("9", "strong"), ("158", "Turbo")]], false, wp, false⟩) ∧
    (i < 2 → async_select_option env "Vacuum and Mop (Water Level: Low)" =
      ⟨([[("154", "FAoKCgIIAhIAGgAiABIGCAEQASAB")], [("10", "low")]]).take (i + 1),
        false, false, false⟩) := by
  refine ⟨?_, ?_, ?_, ?_, ?_, ?_⟩
  · intro h3
    have hplan : send_command_writes CMD_START ++ send_command_writes CMD_CLEANING =
        [[("152", CMD_START)], [("5", "smart")], [("152", CMD_CLEANING)]] := by decide
    have hr := runPlan_some env i henv
      [[("152", CMD_START)], [("5", "smart")], [("152", CMD_CLEANING)]] 0
      (Nat.zero_le i) (by simpa using h3)
    simp only [async_turn_on, hplan, hr]
    simp
  · intro h0
    subst h0
    have ha : activity (some [("153", DPValue.s S1_PRO_STATUS_PAUSED)]) true =
        .ok ⟨some .paused, true⟩ := by decide
    have hr := runPlan_some env 0 henv [[("152", CMD_CLEANING)]] 0
      (Nat.zero_le 0) (by simp)
    simp only [async_start, ha]
    rw [if_pos (Or.inl trivial)]
    have hplan : send_command_writes CMD_CLEANING = [[("152", CMD_CLEANING)]] := by decide
    rw [hplan, hr]
    simp
  · intro h2
    have hplan : send_command_writes CMD_PAUSE =
        [[("152", CMD_PAUSE)], [("5", "pause")]] := by decide
    have hr := runPlan_some env i henv [[("152", CMD_PAUSE)], [("5", "pause")]] 0
      (Nat.zero_le i) (by simpa using h2)
    simp only [async_pause, hplan, hr]
    simp
  · intro h2
    have hplan : send_command_writes CMD_RETURN =
        [[("152", CMD_RETURN)], [("5", "charge")]] := by decide
    have hr := runPlan_some env i henv [[("152", CMD_RETURN)], [("5", "charge")]] 0
      (Nat.zero_le i) (by simpa using h2)
    simp only [async_return_to_base, hplan, hr]
    simp
  · intro h0
    subst h0
    have hl : fanSpeedLookup "Turbo" = some ("strong", "Turbo") := by decide
    have hr := runPlan_some env 0 henv [[("9", "strong"), ("158", "Turbo")]] 0
      (Nat.zero_le 0) (by simp)
    simp only [async_set_fan_speed, hl, hr]
    simp
  · intro h2
    have hm : cleaningModeByName "Vacuum and Mop (Water Level: Low)" =
        some ("FAoKCgIIAhIAGgAiABIGCAEQASAB", some "low") := by decide
    have hr := runPlan_some env i henv
      [[("154", "FAoKCgIIAhIAGgAiABIGCAEQASAB")], [("10", "low")]] 0
      (Nat.zero_le i) (by simpa using h2)
    simp only [async_select_option, hm, hr]
    simp

/-- C5 counterexample to the claim as stated: PAUSE with the transport
raising on its very first write returns normally — no failure signal
reaches the invoker (and the pause memory is reset). -/
theorem C5_counterexample :
    (Env.mk (some 0)).failAt = some 0 ∧
    async_pause ⟨some 0⟩ = ⟨[[("152", CMD_PAUSE)]], false, false, false⟩ := by
  exact ⟨rfl, by decide⟩

/-- Closed witness for C5 at fault index 0. -/
theorem C5_transport_failure_handling_witness :
    async_turn_on ⟨some 0⟩ =
      ⟨[[("152", CMD_START)]], true, false, false⟩ ∧
    async_start ⟨some 0⟩ (some [("153", DPValue.s S1_PRO_STATUS_PAUSED)]) true =
      .ok ⟨[[("152", CMD_CLEANING)]], true, true, false⟩ ∧
    async_pause ⟨some 0⟩ = ⟨[[("152", CMD_PAUSE)]], false, false, false⟩ ∧
    async_return_to_base ⟨some 0⟩ = ⟨[[("152", CMD_RETURN)]], false, false, false⟩ ∧
    async_set_fan_speed ⟨some 0⟩ true "Turbo" =
      ⟨[[("9", "strong"), ("158", "Turbo")]], false, true, false⟩ ∧
    async_select_option ⟨some 0⟩ "Vacuum and Mop (Water Level: Low)" =
      ⟨[[("154", "FAoKCgIIAhIAGgAiABIGCAEQASAB")]], false, false, false⟩ := by
  have h := C5_transport_failure_handling 0 ⟨some 0⟩ true rfl
  exact ⟨by simpa using h.1 (by omega), h.2.1 rfl, by simpa using h.2.2.1 (by omega),
    by simpa using h.2.2.2.1 (by omega), h.2.2.2.2.1 rfl,
    by simpa using h.2.2.2.2.2 (by omega)⟩

/-- C6: SET_FAN_SPEED with a level outside the enumerated map performs
zero device writes, raises nothing, leaves the pause memory alone, and
reports the input as unrecognized. -/
theorem C6_fan_speed_validation (env : Env) (wp : Bool) (fan_speed : String)
    (h : fanSpeedLookup fan_speed = none) :
    async_set_fan_speed env wp fan_speed = ⟨[], false, wp, true⟩ := by
  simp only [async_set_fan_speed, h]

/-- Closed witness for C6 at the unrecognized level "Silent". -/
theorem C6_fan_speed_validation_witness :
    async_set_fan_speed ⟨none⟩ false "Silent" = ⟨[], false, false, true⟩ :=
  C6_fan_speed_validation ⟨none⟩ false "Silent" (by decide)

/-- Python `data[n]` on a byte buffer (all uses in the source are
guarded by length checks, so the default is never exposed). -/
def byteAt (data : List Nat) (n : Nat) : Nat :=
  data.getD n 0

/-- The `while pos < len(data)` loop body of `decode_varint`
(sensor.py lines 29-35), iterating over the bytes from the current
position: each byte contributes its low 7 bits shifted by the
accumulating multiple of 7, and the loop stops after a byte whose top
bit is clear (or at the end of the buffer). -/
def decodeVarintGo : List Nat → Nat → Nat → Nat → Nat × Nat
  | [], pos, _, value => (value, pos)
  | byte :: rest, pos, shift, value =>
    let value2 := value ||| ((byte &&& 0x7F) <<< shift)
    if byte &&& 0x80 = 0 then (value2, pos + 1)
    else decodeVarintGo rest (pos + 1) (shift + 7) value2

/-- `decode_varint` (sensor.py lines 19-37): Protocol-Buffer varint
decoding from `start_pos`, returning (decoded value, next position);
the positional loop is realized by iterating over `data.drop
start_pos`. -/
def decode_varint (data : List Nat) (start_pos : Nat) : Nat × Nat :=
  decodeVarintGo (data.drop start_pos) start_pos 0 0

/-- The statistics dict built by `parse_dps167_statistics`:
`total_time_mins` is intentionally never populated (sensor.py line
112: "not yet reliably identified"). -/
structure Dps167Stats where
  total_count : Option Nat
  total_area : Option Nat
  total_time_mins : Option Nat
deriving DecidableEq, Repr

/-- The byte-buffer core of `parse_dps167_statistics` (sensor.py lines
64-111), after the base64 decode: the trailing count record is found
by testing the marker byte 0x18 at the last-but-1, last-but-2 then
last-but-3 position, in that order; the area is decoded from the two
bytes at fixed positions 14-15 when the buffer has at least 16
bytes. -/
def parse_dps167_bytes (data : List Nat) : Dps167Stats :=
  if data.length = 0 then ⟨none, none, none⟩
  else
    let total_count :=
      if 2 ≤ data.length ∧ byteAt data (data.length - 2) = 0x18 then
        some (byteAt data (data.length - 1))
      else if 3 ≤ data.length ∧ byteAt data (data.length - 3) = 0x18 then
        let byte1 := byteAt data (data.length - 2)
        let byte2 := byteAt data (data.length - 1)
        if byte1 &&& 0x80 ≠ 0 then some ((byte1 &&& 0x7F) + (byte2 <<< 7))
        else some byte1
      else if 4 ≤ data.length ∧ byteAt data (data.length - 4) = 0x18 then
        let byte1 := byteAt data (data.length - 3)
        let byte2 := byteAt data (data.length - 2)
        let byte3 := byteAt data (data.length - 1)
        if byte1 &&& 0x80 ≠ 0 ∧ byte2 &&& 0x80 ≠ 0 then
          some ((byte1 &&& 0x7F) + ((byte2 &&& 0x7F) <<< 7) + (byte3 <<< 14))
        else if byte1 &&& 0x80 ≠ 0 then some ((byte1 &&& 0x7F) + (byte2 <<< 7))
        else some byte1
      else none
    let total_area :=
      if 16 ≤ data.length then
        let byte1 := byteAt data 14
        let byte2 := byteAt data 15
        if byte1 &&& 0x80 ≠ 0 then some ((byte1 &&& 0x7F) + (byte2 <<< 7))
        else some byte1
      else none
    ⟨total_count, total_area, none⟩

/-- Value of one character of the standard base64 alphabet. -/
def b64charVal (c : Char) : Option Nat :=
  if 'A' ≤ c ∧ c ≤ 'Z' then some (c.toNat - 65)
  else if 'a' ≤ c ∧ c ≤ 'z' then some (c.toNat - 97 + 26)
  else if '0' ≤ c ∧ c ≤ '9' then some (c.toNat - 48 + 52)
  else if c = '+' then some 62
  else if c = '/' then some 63
  else none

/-- Quad-wise base64 decoding: models the stdlib `base64.b64decode`
after invalid characters are discarded — each 4-character group yields
3 bytes, a final group may carry 1 or 2 padding characters, and any
other shape raises `binascii.Error` (modelled by `Except.error`). -/
def b64Quads : List Char → Except Unit (List Nat)
  | [] => .ok []
  | c1 :: c2 :: c3 :: c4 :: rest =>
    match b64charVal c1, b64charVal c2 with
    | some v1, some v2 =>
      if c3 = '=' then
        if c4 = '=' ∧ rest = [] then .ok [(v1 <<< 2) + (v2 >>> 4)]
        else .error ()
      else
        match b64charVal c3 with
        | some v3 =>
          if c4 = '=' then
            if rest = [] then
              .ok [(v1 <<< 2) + (v2 >>> 4), ((v2 &&& 0xF) <<< 4) + (v3 >>> 2)]
            else .error ()
          else
            match b64charVal c4 with
            | some v4 =>
              match b64Quads rest with
              | .ok bs =>
                .ok ([(v1 <<< 2) + (v2 >>> 4), ((v2 &&& 0xF) <<< 4) + (v3 >>> 2),
                  ((v3 &&& 0x3) <<< 6) + v4] ++ bs)
              | .error e => .error e
            | none => .error ()
        | none => .error ()
    | _, _ => .error ()
  | _ => .error ()

/-- `base64.b64decode` with default validation: characters outside the
alphabet (and padding) are discarded first, then the remainder is
decoded in quads. -/
def b64decode (s : String) : Except Unit (List Nat) :=
  b64Quads (s.toList.filter (fun c => (b64charVal c).isSome || c = '='))

/-- `parse_dps167_statistics` (sensor.py lines 40-117): base64-decode
the DPS 167 value and parse the buffer; any decode failure yields the
all-unknown statistics (the enclosing `try` returns the initial
dict). -/
def parse_dps167_statistics (dps167_value : String) : Dps167Stats :=
  match b64decode dps167_value with
  | .error _ => ⟨none, none, none⟩
  | .ok data => parse_dps167_bytes data

/-- Negative indexing distributes over append: `data[-k]` of
`pre ++ suf` is `suf[-k]` when the suffix is long enough. -/
theorem byteAt_append_tail (pre suf : List Nat) (k : Nat) (hk : k ≤ suf.length) :
    byteAt (pre ++ suf) ((pre ++ suf).length - k) = byteAt suf (suf.length - k) := by
  unfold byteAt
  rw [List.length_append]
  rw [List.getD_append_right]
  · congr 1
    omega
  · omega

/-- Masking with 0x7F is reduction mod 128. -/
theorem land127_eq_mod (x : Nat) : x &&& 127 = x % 128 := by
  have h2 : x &&& (2 ^ 7 - 1) = x % 2 ^ 7 := Nat.and_pow_two_sub_one_eq_mod x 7
  norm_num at h2
  exact h2

/-- The low 7 bits of anything are below 128. -/
theorem land127_lt (x : Nat) : x &&& 127 < 128 := by
  rw [land127_eq_mod]
  omega

/-- Masking with 0x7F is the identity below 128. -/
theorem land127_of_lt {x : Nat} (h : x < 128) : x &&& 127 = x := by
  rw [land127_eq_mod]
  omega

/-- A byte with clear top bit is below 128. -/
theorem lt128_of_land128_eq_zero {b : Nat} (hb : b < 256) (h : b &&& 128 = 0) :
    b < 128 := by
  by_contra hc
  rw [show (128 : Nat) = 2 ^ 7 from rfl, Nat.and_two_pow, Nat.testBit_to_div_mod] at h
  norm_num at h
  omega

/-- A value below 128 has a clear top bit. -/
theorem land128_eq_zero_of_lt {b : Nat} (hb : b < 128) : b &&& 128 = 0 := by
  rw [show (128 : Nat) = 2 ^ 7 from rfl, Nat.and_two_pow, Nat.testBit_to_div_mod]
  norm_num
  omega

/-- Bitwise or of a 7-bit value with a multiple of 128 is addition. -/
theorem lor_shift7_eq_add (x y : Nat) (h : x < 128) :
    x ||| (y <<< 7) = x + (y <<< 7) := by
  have h7 : x < 2 ^ 7 := by norm_num; omega
  have hb := Nat.mul_add_lt_is_or (i := 7) (b := x) h7 y
  calc x ||| (y <<< 7) = (y <<< 7) ||| x := Nat.lor_comm _ _
    _ = 2 ^ 7 * y ||| x := by rw [Nat.shiftLeft_eq, Nat.mul_comm]
    _ = 2 ^ 7 * y + x := hb.symm
    _ = x + (y <<< 7) := by rw [Nat.shiftLeft_eq, Nat.mul_comm, Nat.add_comm]

/-- Two-byte symbolic evaluation of the source varint decoder. -/
theorem decode_varint_two (b1 b2 : Nat) :
    decode_varint [b1, b2] 0 =
      (if b1 &&& 0x80 = 0 then (b1 &&& 0x7F, 1)
       else ((b1 &&& 0x7F) ||| ((b2 &&& 0x7F) <<< 7), 2)) := by
  by_cases h1 : b1 &&& 0x80 = 0
  · simp [decode_varint, decodeVarintGo, h1]
  · by_cases h2 : b2 &&& 0x80 = 0
    · simp [decode_varint, decodeVarintGo, h1, h2]
    · simp [decode_varint, decodeVarintGo, h1, h2]

/-- C7: total-count decoding of the DPS 167 blob.  For every prefix
`pre` and bytes `x`, `y`, `z` with `x` and `y` distinct from the
marker 0x18: a buffer ending in the marker plus one byte yields that
byte as the count (so the 1-byte varint 100 decodes to 100); a buffer
ending in the marker plus the 2-byte varint of 200 yields 200; the
empty buffer — and the empty base64 string — yield all-unknown
statistics; and the marker is searched at the last-but-1, last-but-2,
then last-but-3 byte in that preference order, decoding 1-, 2- and
3-byte count records respectively. -/
theorem C7_total_count_decoding (pre : List Nat) (x y z : Nat)
    (hx : x ≠ 0x18) (hy : y ≠ 0x18) :
    (parse_dps167_bytes (pre ++ [0x18, x])).total_count = some x ∧
    (parse_dps167_bytes (pre ++ [0x18, 0xC8, 0x01])).total_count = some 200 ∧
    (parse_dps167_bytes [] = ⟨none, none, none⟩ ∧
      parse_dps167_statistics "" = ⟨none, none, none⟩) ∧
    (parse_dps167_bytes (pre ++ [0x18, x, y])).total_count =
      (if x &&& 0x80 ≠ 0 then some ((x &&& 0x7F) + (y <<< 7)) else some x) ∧
    (parse_dps167_bytes (pre ++ [0x18, x, y, z])).total_count =
      (if x &&& 0x80 ≠ 0 ∧ y &&& 0x80 ≠ 0 then
        some ((x &&& 0x7F) + ((y &&& 0x7F) <<< 7) + (z <<< 14))
      else if x &&& 0x80 ≠ 0 then some ((x &&& 0x7F) + (y <<< 7))
      else some x) := by
  refine ⟨?_, ?_, ⟨rfl, rfl⟩, ?_, ?_⟩
  · have h0 : ¬((pre ++ [0x18, x]).length = 0) := by simp
    have h2 : 2 ≤ (pre ++ [0x18, x]).length := by simp
    have hb2 : byteAt (pre ++ [0x18, x]) ((pre ++ [0x18, x]).length - 2) = 0x18 := by
      rw [byteAt_append_tail pre [0x18, x] 2 (by simp)]
      rfl
    have hb1 : byteAt (pre ++ [0x18, x]) ((pre ++ [0x18, x]).length - 1) = x := by
      rw [byteAt_append_tail pre [0x18, x] 1 (by simp)]
      rfl
    simp only [parse_dps167_bytes, if_neg h0]
    rw [hb2, if_pos ⟨h2, rfl⟩, hb1]
  · have h0 : ¬((pre ++ [0x18, 0xC8, 0x01]).length = 0) := by simp
    have h3 : 3 ≤ (pre ++ [0x18, 0xC8, 0x01]).length := by simp
    have hb3 : byteAt (pre ++ [0x18, 0xC8, 0x01])
        ((pre ++ [0x18, 0xC8, 0x01]).length - 3) = 0x18 := by
      rw [byteAt_append_tail pre [0x18, 0xC8, 0x01] 3 (by simp)]
      rfl
    have hb2 : byteAt (pre ++ [0x18, 0xC8, 0x01])
        ((pre ++ [0x18, 0xC8, 0x01]).length - 2) = 0xC8 := by
      rw [byteAt_append_tail pre [0x18, 0xC8, 0x01] 2 (by simp)]
      rfl
    have hb1 : byteAt (pre ++ [0x18, 0xC8, 0x01])
        ((pre ++ [0x18, 0xC8, 0x01]).length - 1) = 0x01 := by
      rw [byteAt_append_tail pre [0x18, 0xC8, 0x01] 1 (by simp)]
      rfl
    simp only [parse_dps167_bytes, if_neg h0]
    rw [hb3, hb2, hb1]
    rw [if_neg (by rintro ⟨-, h⟩; revert h; decide)]
    rw [if_pos ⟨h3, rfl⟩]
    decide
  · have h0 : ¬((pre ++ [0x18, x, y]).length = 0) := by simp
    have h3 : 3 ≤ (pre ++ [0x18, x, y]).length := by simp
    have hb3 : byteAt (pre ++ [0x18, x, y]) ((pre ++ [0x18, x, y]).length - 3) = 0x18 := by
      rw [byteAt_append_tail pre [0x18, x, y] 3 (by simp)]
      rfl
    have hb2 : byteAt (pre ++ [0x18, x, y]) ((pre ++ [0x18, x, y]).length - 2) = x := by
      rw [byteAt_append_tail pre [0x18, x, y] 2 (by simp)]
      rfl
    have hb1 : byteAt (pre ++ [0x18, x, y]) ((pre ++ [0x18, x, y]).length - 1) = y := by
      rw [byteAt_append_tail pre [0x18, x, y] 1 (by simp)]
      rfl
    simp only [parse_dps167_bytes, if_neg h0]
    rw [hb3, hb2, hb1]
    rw [if_neg (by rintro ⟨-, h⟩; exact hx h)]
    rw [if_pos ⟨h3, rfl⟩]
  · have h0 : ¬((pre ++ [0x18, x, y, z]).length = 0) := by simp
    have h4 : 4 ≤ (pre ++ [0x18, x, y, z]).length := by simp
    have hb4 : byteAt (pre ++ [0x18, x, y, z])
        ((pre ++ [0x18, x, y, z]).length - 4) = 0x18 := by
      rw [byteAt_append_tail pre [0x18, x, y, z] 4 (by simp)]
      rfl
    have hb3 : byteAt (pre ++ [0x18, x, y, z])
        ((pre ++ [0x18, x, y, z]).length - 3) = x := by
      rw [byteAt_append_tail pre [0x18, x, y, z] 3 (by simp)]
      rfl
    have hb2 : byteAt (pre ++ [0x18, x, y, z])
        ((pre ++ [0x18, x, y, z]).length - 2) = y := by
      rw [byteAt_append_tail pre [0x18, x, y, z] 2 (by simp)]
      rfl
    have hb1 : byteAt (pre ++ [0x18, x, y, z])
        ((pre ++ [0x18, x, y, z]).length - 1) = z := by
      rw [byteAt_append_tail pre [0x18, x, y, z] 1 (by simp)]
      rfl
    simp only [parse_dps167_bytes, if_neg h0]
    rw [hb4, hb3, hb2, hb1]
    rw [if_neg (by rintro ⟨-, h⟩; exact hy h)]
    rw [if_neg (by rintro ⟨-, h⟩; exact hx h)]
    rw [if_pos ⟨h4, rfl⟩]

/-- Closed witness for C7: count 100 as tag + 1-byte varint, count 200
as tag + 2-byte varint (0xC8 0x01), the empty buffer and empty string,
and both the 2-byte and 3-byte marker positions. -/
theorem C7_total_count_decoding_witness :
    (parse_dps167_bytes [0x18, 100]).total_count = some 100 ∧
    (parse_dps167_bytes [0x18, 0xC8, 0x01]).total_count = some 200 ∧
    (parse_dps167_bytes [] = ⟨none, none, none⟩ ∧
      parse_dps167_statistics "" = ⟨none, none, none⟩) ∧
    (parse_dps167_bytes [0x18, 0xC8, 0x01]).total_count =
      (if (0xC8 : Nat) &&& 0x80 ≠ 0 then some ((0xC8 &&& 0x7F) + (0x01 <<< 7))
       else some 0xC8) ∧
    (parse_dps167_bytes [0x18, 0x85, 0x92, 0x01]).total_count =
      (if (0x85 : Nat) &&& 0x80 ≠ 0 ∧ (0x92 : Nat) &&& 0x80 ≠ 0 then
        some ((0x85 &&& 0x7F) + ((0x92 &&& 0x7F) <<< 7) + (0x01 <<< 14))
      else if (0x85 : Nat) &&& 0x80 ≠ 0 then some ((0x85 &&& 0x7F) + (0x92 <<< 7))
      else some 0x85) := by
  have h1 := C7_total_count_decoding [] 100 1 0 (by decide) (by decide)
  have h2 := C7_total_count_decoding [] 0xC8 0x01 0 (by decide) (by decide)
  have h3 := C7_total_count_decoding [] 0x85 0x92 0x01 (by decide) (by decide)
  exact ⟨by simpa using h1.1, by simpa using h2.2.1, h1.2.2.1,
    by simpa using h2.2.2.2.1, by simpa using h3.2.2.2.2⟩

/-- The area field of the parsed statistics, for buffers of at least
16 bytes, in the exact arithmetic of the source. -/
theorem total_area_eq (data : List Nat) (h16 : 16 ≤ data.length) :
    (parse_dps167_bytes data).total_area =
      (if byteAt data 14 &&& 0x80 ≠ 0 then
        some ((byteAt data 14 &&& 0x7F) + (byteAt data 15 <<< 7))
      else some (byteAt data 14)) := by
  have h0 : ¬(data.length = 0) := by omega
  simp only [parse_dps167_bytes, if_neg h0, if_pos h16]

/-- C8 (amended): for every buffer of at least 16 bytes the area is
`(data[14] & 0x7F) + (data[15] << 7)` when byte 14 has its top bit set
— byte 15 contributing all 8 of its bits, with no continuation check —
and `data[14]` itself otherwise; this agrees with the 2-byte varint at
positions 14-15 whenever byte 15 is below 0x80 (a completed varint);
buffers shorter than 16 bytes yield an unknown area. -/
theorem C8_total_area_decoding (data : List Nat) :
    (16 ≤ data.length →
      (parse_dps167_bytes data).total_area =
        (if byteAt data 14 &&& 0x80 ≠ 0 then
          some ((byteAt data 14 &&& 0x7F) + (byteAt data 15 <<< 7))
        else some (byteAt data 14))) ∧
    (16 ≤ data.length → byteAt data 14 < 256 → byteAt data 15 < 128 →
      (parse_dps167_bytes data).total_area =
        some (decode_varint [byteAt data 14, byteAt data 15] 0).1) ∧
    (data.length < 16 → (parse_dps167_bytes data).total_area = none) := by
  refine ⟨fun h16 => total_area_eq data h16, ?_, ?_⟩
  · intro h16 hb14 hb15
    rw [total_area_eq data h16, decode_varint_two]
    by_cases hb : byteAt data 14 &&& 0x80 = 0
    · rw [if_neg (fun hc => hc hb), if_pos hb]
      have hlt : byteAt data 14 < 128 := lt128_of_land128_eq_zero hb14 hb
      rw [land127_of_lt hlt]
    · rw [if_pos hb, if_neg hb]
      rw [land127_of_lt hb15]
      rw [lor_shift7_eq_add _ _ (land127_lt _)]
  · intro hlt
    by_cases h0 : data.length = 0
    · simp [parse_dps167_bytes, h0]
    · have hn : ¬(16 ≤ data.length) := by omega
      simp only [parse_dps167_bytes, if_neg h0, if_neg hn]

/-- C8 counterexample to the claim as stated: the 16-byte buffer of
fourteen zeros followed by 0x80 0x80 decodes, per the source, to area
16384 (byte 15 contributes all 8 bits), while the variable-length
integer decoded from the two bytes at positions 14-15 — with the low-7
bits-per-byte rule the claim states, via the source's own
`decode_varint` — is 0. -/
theorem C8_counterexample :
    (parse_dps167_bytes (List.replicate 14 0 ++ [0x80, 0x80])).total_area =
      some 16384 ∧
    (decode_varint [0x80, 0x80] 0).1 = 0 ∧
    (decode_varint (List.replicate 14 0 ++ [0x80, 0x80]) 14).1 = 0 ∧
    (16384 : Nat) ≠ 0 := by
  refine ⟨by decide, by decide, by decide, by decide⟩

/-- Closed witness for C8 on the 16-byte buffer ending in 0x81 0x02:
area `1 + (2 << 7) = 257`, matching the varint reading. -/
theorem C8_total_area_decoding_witness :
    (parse_dps167_bytes (List.replicate 14 0 ++ [0x81, 0x02])).total_area =
        some 257 ∧
    (parse_dps167_bytes [0x18, 100]).total_area = none := by
  have h := C8_total_area_decoding (List.replicate 14 0 ++ [0x81, 0x02])
  have h2 := C8_total_area_decoding [0x18, 100]
  constructor
  · have hx := h.2.1 (by decide) (by decide) (by decide)
    rw [hx]
    decide
  · exact h2.2.2 (by decide)

/-- A discovery record: the JSON object carried by one broadcast
datagram, as a string-keyed association list (values modelled as
strings; only the "gwId" identifier field is consulted by
`device_found`). -/
abbrev DiscoveryRecord := List (String × String)

/-- Python `device.get("gwId")` on a discovery record. -/
def recGet (r : DiscoveryRecord) (k : String) : Option String :=
  (r.find? (fun p => p.1 == k)).map (fun p => p.2)

/-- `TuyaDiscovery.device_found` (discovery.py lines 98-106): the
accumulated `self.devices` dict keyed by device identifier, in
insertion order; a record is added only when its identifier is truthy
(non-empty) and not yet present — first-seen wins. -/
def device_found (devices : List (String × DiscoveryRecord)) (device : DiscoveryRecord) :
    List (String × DiscoveryRecord) :=
  match recGet device "gwId" with
  | none => devices
  | some id0 =>
    if id0 ≠ "" ∧ devices.find? (fun p => p.1 == id0) = none then
      devices ++ [(id0, device)]
    else devices

/-- C9: discovery deduplication is idempotent and first-seen wins:
feeding a record and then any second record with the same (non-empty)
identifier leaves the set at size 1 holding the first record
unchanged; feeding a record with a different non-empty identifier
yields a set of size 2. -/
theorem C9_discovery_dedup (r q r2 : DiscoveryRecord) (id0 id2 : String)
    (h1 : recGet r "gwId" = some id0) (hne : id0 ≠ "")
    (h2 : recGet q "gwId" = some id0)
    (h3 : recGet r2 "gwId" = some id2) (hne2 : id2 ≠ "") (hdiff : id2 ≠ id0) :
    device_found (device_found [] r) q = [(id0, r)] ∧
    (device_found (device_found [] r) q).length = 1 ∧
    (device_found (device_found [] r) r2).length = 2 := by
  have hbe : (id0 == id2) = false := by
    simp only [beq_eq_false_iff_ne, ne_eq]
    exact fun hc => hdiff hc.symm
  have e1 : device_found [] r = [(id0, r)] := by
    simp [device_found, h1, hne]
  refine ⟨?_, ?_, ?_⟩
  · rw [e1]
    simp [device_found, h2, List.find?]
  · rw [e1]
    simp [device_found, h2, List.find?]
  · rw [e1]
    simp [device_found, h3, hne2, List.find?, hbe]

/-- Closed witness for C9: the same identifier twice (with a changed
payload the second time) keeps the first record; a second identifier
grows the set to 2. -/
theorem C9_discovery_dedup_witness :
    device_found (device_found [] [("gwId", "dev1"), ("ip", "10.0.0.7")])
        [("gwId", "dev1"), ("ip", "10.0.0.9")] =
      [("dev1", [("gwId", "dev1"), ("ip", "10.0.0.7")])] ∧
    (device_found (device_found [] [("gwId", "dev1"), ("ip", "10.0.0.7")])
        [("gwId", "dev1"), ("ip", "10.0.0.9")]).length = 1 ∧
    (device_found (device_found [] [("gwId", "dev1"), ("ip", "10.0.0.7")])
        [("gwId", "dev2")]).length = 2 := by
  have h := C9_discovery_dedup [("gwId", "dev1"), ("ip", "10.0.0.7")]
    [("gwId", "dev1"), ("ip", "10.0.0.9")] [("gwId", "dev2")] "dev1" "dev2"
    (by decide) (by decide) (by decide) (by decide) (by decide) (by decide)
  exact h

/-- Value of a list of decimal digit characters. -/
def digitsToNat (ds : List Char) : Nat :=
  ds.foldl (fun acc c => acc * 10 + (c.toNat - 48)) 0

/-- Python `int(string)` on canonical inputs: an optional sign
followed by at least one decimal digit; anything else raises
`ValueError`, modelled as `none`. -/
def pyStrToInt (t : String) : Option Int :=
  match t.toList with
  | [] => none
  | '-' :: ds =>
    if ds ≠ [] ∧ ds.all Char.isDigit then some (-(digitsToNat ds : Int)) else none
  | '+' :: ds =>
    if ds ≠ [] ∧ ds.all Char.isDigit then some (digitsToNat ds : Int) else none
  | ds => if ds.all Char.isDigit then some (digitsToNat ds : Int) else none

/-- Python `int(value)`: integers pass through, booleans become 0/1
(`bool` subclasses `int`), and strings parse as decimal integers
(otherwise `ValueError`, modelled as `none`). -/
def pyInt : DPValue → Option Int
  | .i n => some n
  | .b bv => some (if bv then 1 else 0)
  | .s t => pyStrToInt t

/-- One arm of the battery reader: the value under `key`, accepted
only when `int(value)` succeeds and lies in [0, 100] (vacuum.py lines
194-201 for key "8" and 204-211 for key "163"). -/
def batteryFrom (d : Snapshot) (key : String) : Option Int :=
  match dget d key with
  | none => none
  | some v =>
    match pyInt v with
    | none => none
    | some battery => if 0 ≤ battery ∧ battery ≤ 100 then some battery else none

/-- `RobovacVacuum.battery_level` (vacuum.py lines 189-212), the same
logic as `BatteryPercentageSensor.native_value` (sensor.py lines
206-228): DPS "8" validated into [0, 100], else DPS "163" under the
same validation, else `None` (also when the coordinator data is falsy). -/
def battery_level (data : Option Snapshot) : Option Int :=
  match data with
  | none => none
  | some d =>
    if d.isEmpty then none
    else
      match batteryFrom d "8" with
      | some battery => some battery
      | none => batteryFrom d "163"

/-- C10: the reported battery level comes from DPS "8" only when that
value converts to an integer in [0, 100]; otherwise (key absent,
non-numeric, or out of range) it falls back to DPS "163" under the
same validation; when neither key yields a valid in-range integer —
or there is no data — the level is unknown. -/
theorem C10_battery_validation (d : Snapshot) (v : DPValue) (b : Int) :
    (dget d "8" = some v → pyInt v = some b → 0 ≤ b → b ≤ 100 →
      battery_level (some d) = some b) ∧
    (batteryFrom d "8" = none → dget d "163" = some v → pyInt v = some b →
      0 ≤ b → b ≤ 100 → battery_level (some d) = some b) ∧
    (batteryFrom d "8" = none → batteryFrom d "163" = none →
      battery_level (some d) = none) ∧
    battery_level none = none := by
  refine ⟨?_, ?_, ?_, rfl⟩
  · intro h hp h0 h100
    have hne : d.isEmpty = false := dget_isEmpty_false h
    have hb8 : batteryFrom d "8" = some b := by
      simp [batteryFrom, h, hp, h0, h100]
    simp [battery_level, hne, hb8]
  · intro h8 h hp h0 h100
    have hne : d.isEmpty = false := dget_isEmpty_false h
    have hb163 : batteryFrom d "163" = some b := by
      simp [batteryFrom, h, hp, h0, h100]
    simp [battery_level, hne, h8, hb163]
  · intro h8 h163
    cases hd : d.isEmpty with
    | true => simp [battery_level, hd]
    | false => simp [battery_level, hd, h8, h163]

/-- Closed witness for C10: a valid DPS "8" is used directly; an
out-of-range "8" (150) falls back to a valid "163"; a non-numeric "8"
with no "163" yields unknown; no data yields unknown. -/
theorem C10_battery_validation_witness :
    battery_level (some [("8", DPValue.i 77)]) = some 77 ∧
    battery_level (some [("8", DPValue.s "150"), ("163", DPValue.i 42)]) = some 42 ∧
    battery_level (some [("8", DPValue.s "abc")]) = none ∧
    battery_level none = none := by
  refine ⟨?_, ?_, ?_, ?_⟩
  · exact (C10_battery_validation [("8", DPValue.i 77)] (.i 77) 77).1
      (by decide) rfl (by decide) (by decide)
  · exact (C10_battery_validation [("8", DPValue.s "150"), ("163", DPValue.i 42)]
      (.i 42) 42).2.1 (by decide) (by decide) rfl (by decide) (by decide)
  · exact (C10_battery_validation [("8", DPValue.s "abc")] (.i 0) 0).2.2.1
      (by decide) (by decide)
  · exact (C10_battery_validation [] (.i 0) 0).2.2.2
